import Mathlib

/-!
Verification of the Workflow Orchestration Core of the `idwo-mcp-agent`
repository (TypeScript), as a shallow embedding in Lean 4.

The embedding follows the source files:
  * `src/workflows/orchestrator.ts` (the `WorkflowOrchestrator` class):
    `analyzePR`, `smartTriage`, `orchestrateRelease`, `syncWorkflowStatus`,
    the private helpers, and the in-memory workflow-state `Map`.
  * `src/agents/openai.ts` (the `OpenAIAgent` class): the confidence clamp in
    `analyzeContext` and the pure `calculateVelocityTrend` function.

Modelling conventions:
  * JavaScript numbers are modelled as exact rationals (`ℚ`); PR numbers,
    which only flow into id strings, as `Nat`.
  * `async` adapter calls (GitHub, JIRA, Slack, OpenAI clients) are external
    collaborators: an `Env` record supplies each call's outcome as
    `Except JsError α`.  Operations return the result, the new state store
    and a trace of the external calls and state-store writes they performed.
  * JavaScript `x || default` is falsy-aware: `0` and `""` select the
    default; arrays (even empty) never do.  Modelled by `jsOrNum`/`jsOrStr`
    and `Option.getD` respectively.
  * `lastUpdated : Date` fields are wall-clock time and are not modelled.
-/

set_option autoImplicit false

/-- JavaScript errors raised by the core or its adapters: a plain
`new Error(message)` or a `ServiceError` tagging the failing service. -/
inductive JsError where
  | message (msg : String)
  | service (service : String) (msg : String)
  deriving DecidableEq, Repr

/-- One platform-specific pointer record inside `WorkflowStatus.services`
(`{status?, url?}` for GitHub, `{status?, key?}` for JIRA,
`{channel?, messageId?}` for Slack).  An absent JS object key is `none`. -/
structure ServiceEntry where
  status : Option String := none
  url : Option String := none
  key : Option String := none
  channel : Option String := none
  messageId : Option String := none
  deriving DecidableEq, Repr

/-- The sparse `services` map of a `WorkflowStatus`. -/
structure Services where
  github : Option ServiceEntry := none
  jira : Option ServiceEntry := none
  slack : Option ServiceEntry := none
  deriving DecidableEq, Repr

/-- `WorkflowStatus` from `src/types/index.ts` (without the wall-clock
`lastUpdated` field, which is not modelled). -/
structure WorkflowStatus where
  id : String
  type : String
  status : String
  services : Services
  deriving DecidableEq, Repr

/-- A release blocker `{type, description, severity}`. -/
structure Blocker where
  type : String
  description : String
  severity : String
  deriving DecidableEq, Repr

/-- The partially-typed `structured_data` map an LLM response may carry.
Only the fields the orchestrator reads are listed; an absent key is `none`. -/
structure StructuredData where
  suggestedReviewers : Option (List String) := none
  riskLevel : Option String := none
  estimatedReviewTime : Option ℚ := none
  topics : Option (List String) := none
  priority : Option String := none
  category : Option String := none
  estimatedEffort : Option ℚ := none
  suggestedAssignee : Option String := none
  dependencies : Option (List String) := none
  tags : Option (List String) := none
  readinessScore : Option ℚ := none
  blockers : Option (List Blocker) := none
  deriving DecidableEq, Repr

/-- `AnalysisResult` from `src/agents/openai.ts`. -/
structure AnalysisResult where
  analysis : String
  confidence : ℚ
  recommendations : List String
  structuredData : Option StructuredData := none
  deriving DecidableEq, Repr

/-- The JSON object `analyzeContext` parses out of the raw LLM response
(`parsedResult` in the source), before any clamping. -/
structure OpenAIParsedResult where
  analysis : String
  confidence : ℚ
  recommendations : List String
  structured_data : Option StructuredData := none
  deriving DecidableEq, Repr

/-- The final `return` of `OpenAIAgent.analyzeContext` on the success path
(`src/agents/openai.ts` lines 69-74): the parsed fields are passed through
except `confidence`, which is clamped via `Math.max(0, Math.min(100, c))`. -/
def analyzeContextResult (parsedResult : OpenAIParsedResult) : AnalysisResult :=
  { analysis := parsedResult.analysis
    confidence := max 0 (min 100 parsedResult.confidence)
    recommendations := parsedResult.recommendations
    structuredData := parsedResult.structured_data }

/-- JavaScript `x || d` for an optional number field: `undefined` and `0`
are falsy and select the default. -/
def jsOrNum (x : Option ℚ) (d : ℚ) : ℚ :=
  match x with
  | some v => if v = 0 then d else v
  | none => d

/-- JavaScript `x || d` for an optional string field: `undefined` and the
empty string are falsy and select the default. -/
def jsOrStr (x : Option String) (d : String) : String :=
  match x with
  | some v => if v = "" then d else v
  | none => d

/-- JavaScript falsiness of an optional string (`undefined` or `""`). -/
def jsFalsyStr (x : Option String) : Bool :=
  match x with
  | some v => v = ""
  | none => true

/-- `WorkflowOrchestrator.determineReleaseRecommendation`
(`src/workflows/orchestrator.ts` lines 483-487). -/
def determineReleaseRecommendation (readinessScore : ℚ) : String :=
  if readinessScore ≥ 85 then "proceed"
  else if readinessScore ≥ 70 then "caution"
  else "block"

/-- The `velocity` argument of `calculateVelocityTrend`. -/
structure Velocity where
  current : ℚ
  historical : List ℚ
  deriving DecidableEq, Repr

/-- `OpenAIAgent.calculateVelocityTrend` (`src/agents/openai.ts` lines
424-436).  `slice(-3)` / `slice(0,-3)` become `drop (n-3)` / `take (n-3)`.
When `earlier` is empty (history length 2 or 3) the JS code divides by zero
giving `NaN`, both `NaN` comparisons are false, and the function returns
"stable"; the explicit empty check below models exactly that. -/
def calculateVelocityTrend (velocity : Velocity) : String :=
  if velocity.historical.length < 2 then "stable"
  else
    let recent := velocity.historical.drop (velocity.historical.length - 3)
    let earlier := velocity.historical.take (velocity.historical.length - 3)
    if earlier.length = 0 then "stable"
    else
      let recentAvg := recent.sum / (recent.length : ℚ)
      let earlierAvg := earlier.sum / (earlier.length : ℚ)
      if recentAvg > earlierAvg * (11 / 10 : ℚ) then "increasing"
      else if recentAvg < earlierAvg * (9 / 10 : ℚ) then "decreasing"
      else "stable"

/-- The three sync platforms (`'github' | 'jira' | 'slack'`). -/
inductive Platform where
  | github
  | jira
  | slack
  deriving DecidableEq, Repr

/-- The orchestrator's `workflowState : Map<string, WorkflowStatus>`.
`set` prepends, `get` returns the most recent binding. -/
abbrev Store := List (String × WorkflowStatus)

/-- `Map.set` (used by `updateWorkflowStatus` and `syncWorkflowStatus`). -/
def Store.put (st : Store) (k : String) (v : WorkflowStatus) : Store :=
  (k, v) :: st

/-- `Map.get` (used by `syncWorkflowStatus`). -/
def Store.get (st : Store) (k : String) : Option WorkflowStatus :=
  (st.find? (fun p => p.1 == k)).map (fun p => p.2)

/-- PR details returned by `github.getPRDetails`.  Only `title` and `body`
are read by the orchestrator itself; files, commits and reviews are
forwarded verbatim to the LLM adapter, whose outcome `Env` supplies. -/
structure PRDetails where
  title : String
  body : String
  deriving DecidableEq, Repr

/-- Repository stats; only `contributors` is read by the orchestrator. -/
structure RepoStats where
  contributors : List String
  deriving DecidableEq, Repr

/-- JIRA issue record: the orchestrator reads `summary`, `description` and
`sprint`; labels, comments, reporter and components are forwarded verbatim
to the LLM adapter. -/
structure JiraIssue where
  summary : String
  description : String
  sprint : Option String := none
  deriving DecidableEq, Repr

/-- One hit of `jira.searchIssues`; the orchestrator reads `key`,
`summary` and `priority`. -/
structure JiraSearchResult where
  key : String
  summary : String
  priority : String
  deriving DecidableEq, Repr

/-- Project stats; only `totalIssues` is read by the orchestrator. -/
structure JiraProjectStats where
  totalIssues : ℚ
  deriving DecidableEq, Repr

/-- A resolved Slack channel; only `id` is read by the orchestrator. -/
structure SlackChannel where
  id : String
  deriving DecidableEq, Repr

/-- The stub `getTestResults` return shape. -/
structure TestResults where
  passed : ℚ
  failed : ℚ
  coverage : ℚ
  deriving DecidableEq, Repr

/-- Outcomes of the adapter calls one operation may perform.  Every async
adapter method is an external collaborator; the environment fixes the
outcome it delivers (the backend is deterministic within one operation). -/
structure Env where
  getPRDetails : Except JsError PRDetails
  getRepositoryStats : Except JsError RepoStats
  getIssueDetails : Except JsError Unit
  createRelease : Except JsError Unit
  updatePRStatus : Except JsError Unit
  jiraGetIssue : Except JsError JiraIssue
  jiraSearchIssues : Except JsError (List JiraSearchResult)
  jiraProjectStats : Except JsError JiraProjectStats
  jiraAddComment : Except JsError Unit
  slackFindChannel : Except JsError (Option SlackChannel)
  slackSendNotification : Except JsError Unit
  aiAnalyzePullRequest : Except JsError AnalysisResult
  aiTriageIssue : Except JsError AnalysisResult
  aiAssessReleaseReadiness : Except JsError AnalysisResult

/-- Observable events of one operation: adapter calls (with the arguments
derived by the orchestrator) and `updateWorkflowStatus`/`Map.set` writes. -/
inductive Effect where
  | putStatus (workflowId : String) (status : String)
  | getPRDetails (owner repo : String) (pullNumber : Nat)
  | getRepositoryStats (owner repo : String)
  | getIssueDetails (owner repo issueNumber : String)
  | createRelease (owner repo tagName : String) (draft : Bool)
  | updatePRStatus (owner repo pullNumber : String)
  | jiraGetIssue (issueKey : String)
  | jiraSearchIssues (jql : String)
  | jiraProjectStats (projectKey : String)
  | jiraAddComment (issueKey comment : String)
  | slackFindChannel (name : String)
  | slackSendNotification (channelId : String)
  | aiAnalyzePullRequest
  | aiTriageIssue
  | aiAssessReleaseReadiness
  | syncPush (platform : Platform)
  deriving DecidableEq, Repr

/-- `PRAnalysisParams`. -/
structure PRAnalysisParams where
  owner : String
  repo : String
  pull_number : Nat
  include_jira_context : Option Bool := none
  deriving DecidableEq, Repr

/-- `SmartTriageParams`. -/
structure SmartTriageParams where
  issue_key : String
  github_issue_url : Option String := none
  team_context : Option String := none
  deriving DecidableEq, Repr

/-- `ReleaseOrchestrationParams`. -/
structure ReleaseOrchestrationParams where
  release_version : String
  repository : String
  jira_project : String
  slack_channel : String
  dry_run : Option Bool := none
  deriving DecidableEq, Repr

/-- `WorkflowStatusParams`. -/
structure WorkflowStatusParams where
  workflow_id : String
  status_update : String
  platforms : Option (List Platform) := none
  deriving DecidableEq, Repr

/-- `PRAnalysisResult`. -/
structure PRAnalysisResult where
  summary : String
  suggestedReviewers : List String
  riskLevel : String
  estimatedReviewTime : ℚ
  topics : List String
  relatedJiraTickets : List String
  deriving DecidableEq, Repr

/-- `IssueTriageResult`. -/
structure IssueTriageResult where
  priority : String
  category : String
  estimatedEffort : ℚ
  suggestedAssignee : Option String := none
  suggestedSprint : Option String := none
  dependencies : List String
  tags : List String
  deriving DecidableEq, Repr

/-- `ReleaseAnalysis`. -/
structure ReleaseAnalysis where
  readiness : ℚ
  blockers : List Blocker
  testCoverage : ℚ
  openIssues : ℚ
  recommendation : String
  suggestedActions : List String
  deriving DecidableEq, Repr

/-- Decidable equality of adapter-call outcomes. -/
instance {ε α : Type} [DecidableEq ε] [DecidableEq α] : DecidableEq (Except ε α) := fun x y =>
  match x, y with
  | .ok a, .ok b =>
    if h : a = b then isTrue (h ▸ rfl) else isFalse (fun hh => h (Except.ok.inj hh))
  | .error a, .error b =>
    if h : a = b then isTrue (h ▸ rfl) else isFalse (fun hh => h (Except.error.inj hh))
  | .ok _, .error _ => isFalse (fun hh => Except.noConfusion hh)
  | .error _, .ok _ => isFalse (fun hh => Except.noConfusion hh)

/-- JS array indexing with a possibly negative index (negative or
out-of-range gives `undefined`). -/
def jsIndex (xs : List String) (i : Int) : Option String :=
  if i < 0 then none else xs[i.toNat]?

/-- Split a character list at every character satisfying `p` (keeping empty
fragments, exactly like JS `split` with a one-character separator). -/
def splitPred (p : Char → Bool) : List Char → List (List Char)
  | [] => [[]]
  | c :: cs =>
    if p c then [] :: splitPred p cs
    else
      match splitPred p cs with
      | h :: t => (c :: h) :: t
      | [] => [[c]]

/-- JS `s.split(sep)` for a one-character separator. -/
def jsSplit (s : String) (sep : Char) : List String :=
  (splitPred (fun c => c == sep) s.data).map String.mk

/-- JS `s.toLowerCase()`. -/
def jsToLower (s : String) : String :=
  String.mk (s.data.map Char.toLower)

/-- JS `xs.join(sep)`. -/
def joinSep (sep : String) : List String → String
  | [] => ""
  | [x] => x
  | x :: xs => x ++ sep ++ joinSep sep xs

/-- All matches of the JS regex `/([A-Z]+-\d+)/g` in scan order: a match is
a maximal run of uppercase letters, a dash, and a maximal run of digits;
scanning resumes after each match, and after one character when the
position cannot start a match. -/
def jiraKeyMatches : List Char → List String
  | [] => []
  | c :: cs =>
    if c.isUpper then
      let uppers := (c :: cs).takeWhile Char.isUpper
      match h : (c :: cs).dropWhile Char.isUpper with
      | '-' :: rest2 =>
        let digits := rest2.takeWhile Char.isDigit
        if digits.isEmpty then jiraKeyMatches cs
        else String.mk (uppers ++ '-' :: digits) :: jiraKeyMatches (rest2.dropWhile Char.isDigit)
      | _ => jiraKeyMatches cs
    else jiraKeyMatches cs
termination_by l => l.length
decreasing_by
  all_goals simp only [List.length_cons]
  all_goals first
    | omega
    | (have h1 : (List.dropWhile Char.isDigit rest2).length ≤ rest2.length :=
         (rest2.dropWhile_sublist Char.isDigit).length_le
       have h2 := congrArg List.length h
       have h3 : (List.dropWhile Char.isUpper (c :: cs)).length ≤ (c :: cs).length :=
         ((c :: cs).dropWhile_sublist Char.isUpper).length_le
       simp only [List.length_cons] at h2 h3
       omega)

/-- `[...new Set(xs)]`: dedupe keeping the first occurrence of each key. -/
def dedupKeys (seen : List String) : List String → List String
  | [] => []
  | x :: xs => if x ∈ seen then dedupKeys seen xs else x :: dedupKeys (x :: seen) xs

/-- `extractJiraContext` (orchestrator lines 383-394): scan `title + ' ' + body`
for ticket-key patterns, dedupe; `null` when no ticket is found.  The body
is pure, so the surrounding try/catch never fires. -/
def extractJiraContext (title body : String) : Option (List String) :=
  let tickets := dedupKeys [] (jiraKeyMatches (title ++ " " ++ body).data)
  if tickets.length > 0 then some tickets else none

/-- The stop-word set of `extractKeywords`. -/
def stopWords : List String :=
  ["the", "and", "or", "but", "in", "on", "at", "to", "for", "of", "with", "by"]

/-- `extractKeywords` (lines 433-437): lowercase, split on whitespace, keep
words longer than 3 characters that are not stop words, first 10.  JS
`split(/\s+/)` differs from per-character splitting only by empty
fragments, which the length filter discards either way. -/
def extractKeywords (text : String) : List String :=
  (((splitPred Char.isWhitespace (jsToLower text).data).map String.mk).filter
    (fun word => word.length > 3 && !(stopWords.contains word))).take 10

/-- The JQL string built by `findSimilarIssues`. -/
def similarIssuesJql (title description : String) : String :=
  "text ~ \"" ++ joinSep " OR " ((extractKeywords (title ++ " " ++ description)).take 3) ++
    "\" ORDER BY created DESC"

/-- `findSimilarIssues` (lines 417-431): best-effort search (limit 5 is the
adapter's concern); on adapter failure degrade to `[]`. -/
def findSimilarIssues (env : Env) (title description : String) :
    List (String × String) × List Effect :=
  (match env.jiraSearchIssues with
   | .ok issues => issues.map (fun i => (i.key, i.summary))
   | .error _ => [],
   [.jiraSearchIssues (similarIssuesJql title description)])

/-- `getTeamMembers` (lines 439-447): best-effort; on failure `[]`. -/
def getTeamMembers (env : Env) (owner repo : String) : List String × List Effect :=
  (match env.getRepositoryStats with
   | .ok stats => stats.contributors
   | .error _ => [],
   [.getRepositoryStats owner repo])

/-- `getSuggestedSprint` (lines 449-457): re-fetch the issue; on success
`issue.sprint || 'Next Sprint'`, on failure `undefined`. -/
def getSuggestedSprint (env : Env) (issueKey : String) : Option String × List Effect :=
  (match env.jiraGetIssue with
   | .ok issue => some (jsOrStr issue.sprint "Next Sprint")
   | .error _ => none,
   [.jiraGetIssue issueKey])

/-- `extractGitHubIssueContext` (lines 396-415): parse the URL from the end;
on a malformed URL or adapter failure degrade to `null`.  The fetched issue
payload is never read downstream, so it is modelled as `Unit`. -/
def extractGitHubIssueContext (env : Env) (url : String) : Option Unit × List Effect :=
  let urlParts := jsSplit url '/'
  let owner := jsIndex urlParts ((urlParts.length : Int) - 4)
  let repo := jsIndex urlParts ((urlParts.length : Int) - 3)
  let issueNumberStr := jsIndex urlParts ((urlParts.length : Int) - 1)
  if jsFalsyStr issueNumberStr then (none, [])
  else if jsFalsyStr owner || jsFalsyStr repo then (none, [])
  else
    (env.getIssueDetails.toOption,
     [.getIssueDetails (owner.getD "") (repo.getD "") (issueNumberStr.getD "")])

/-- The JQL string built by `getBlockingIssues`. -/
def blockingIssuesJql (projectKey : String) : String :=
  "project = \"" ++ projectKey ++ "\" AND status NOT IN (\"Done\", \"Closed\") AND priority = \"Highest\""

/-- `getBlockingIssues` (lines 459-473): best-effort (limit 10 is the
adapter's concern); on failure `[]`.  Hits map to `(key, priority, summary)`. -/
def getBlockingIssues (env : Env) (projectKey : String) :
    List (String × String × String) × List Effect :=
  (match env.jiraSearchIssues with
   | .ok issues => issues.map (fun i => (i.key, i.priority, i.summary))
   | .error _ => [],
   [.jiraSearchIssues (blockingIssuesJql projectKey)])

/-- `getTestResults` (lines 475-477): a stub returning zeros. -/
def getTestResults (owner repo : String) : TestResults :=
  ⟨0, 0, 0⟩

/-- `getDeploymentHistory` (lines 479-481): a stub returning the empty list. -/
def getDeploymentHistory (owner repo : String) : List Unit :=
  []

/-- `updateStatusOnPlatform` (lines 513-553).  The notification/comment
payloads are composed from `status` and `statusUpdate`; the effect records
the arguments that identify the push target. -/
def updateStatusOnPlatform (env : Env) (platform : Platform)
    (status : WorkflowStatus) (statusUpdate : String) :
    Except JsError Unit × List Effect :=
  match platform with
  | .github =>
    let url := status.services.github.bind (fun g => g.url)
    if jsFalsyStr url then (.ok (), [])
    else
      let urlParts := jsSplit (url.getD "") '/' 
      if urlParts.contains "pull" then
        let owner := jsIndex urlParts ((urlParts.length : Int) - 4)
        let repo := jsIndex urlParts ((urlParts.length : Int) - 3)
        let pullNumberStr := jsIndex urlParts ((urlParts.length : Int) - 1)
        if jsFalsyStr pullNumberStr then (.error (.message "Invalid GitHub PR URL"), [])
        else if jsFalsyStr owner || jsFalsyStr repo then
          (.error (.message "Invalid GitHub PR URL format"), [])
        else
          (env.updatePRStatus, [.updatePRStatus (owner.getD "") (repo.getD "") (pullNumberStr.getD "")])
      else (.ok (), [])
  | .jira =>
    let key := status.services.jira.bind (fun j => j.key)
    if jsFalsyStr key then (.ok (), [])
    else
      (env.jiraAddComment, [.jiraAddComment (key.getD "") ("🤖 IDWO Status Update: " ++ statusUpdate)])
  | .slack =>
    let channel := status.services.slack.bind (fun s => s.channel)
    if jsFalsyStr channel then (.ok (), [])
    else (env.slackSendNotification, [.slackSendNotification (channel.getD "")])

/-- The service-entry merge of `syncWorkflowStatus` (lines 327-331):
JS `{ status: statusUpdate, ...currentService }` — every key present in
the existing entry overrides the freshly-written `status`. -/
def mergeServiceEntry (statusUpdate : String) (currentService : Option ServiceEntry) : ServiceEntry :=
  match currentService with
  | none => { status := some statusUpdate }
  | some c => { c with status := some (c.status.getD statusUpdate) }

/-- Read `updatedStatus.services[platform]`. -/
def getServiceEntry (services : Services) (platform : Platform) : Option ServiceEntry :=
  match platform with
  | .github => services.github
  | .jira => services.jira
  | .slack => services.slack

/-- Write `updatedStatus.services[platform] = entry`. -/
def setServiceEntry (services : Services) (platform : Platform) (entry : ServiceEntry) : Services :=
  match platform with
  | .github => { services with github := some entry }
  | .jira => { services with jira := some entry }
  | .slack => { services with slack := some entry }

/-- The platform loop of `syncWorkflowStatus` (lines 324-335): each push is
attempted against the record as merged so far; a failed push is logged and
skipped (no merge), and never aborts the remaining platforms. -/
def syncPlatformsLoop (env : Env) (statusUpdate : String) :
    List Platform → WorkflowStatus → WorkflowStatus × List Effect
  | [], updatedStatus => (updatedStatus, [])
  | platform :: rest, updatedStatus =>
    let pushed := updateStatusOnPlatform env platform updatedStatus statusUpdate
    let next :=
      match pushed.1 with
      | .ok _ =>
        { updatedStatus with
          services := setServiceEntry updatedStatus.services platform
            (mergeServiceEntry statusUpdate (getServiceEntry updatedStatus.services platform)) }
      | .error _ => updatedStatus
    let tail := syncPlatformsLoop env statusUpdate rest next
    (tail.1, Effect.syncPush platform :: pushed.2 ++ tail.2)

/-- `syncWorkflowStatus` (lines 309-345): unknown id is fatal with a
not-found error and no pushes; otherwise the top-level status is replaced,
each requested platform (default: all three) is pushed best-effort, and the
final record is persisted. -/
def syncWorkflowStatus (env : Env) (st : Store) (params : WorkflowStatusParams) :
    Except JsError WorkflowStatus × Store × List Effect :=
  match st.get params.workflow_id with
  | none => (.error (.message ("Workflow " ++ params.workflow_id ++ " not found")), st, [])
  | some existingStatus =>
    let updatedStatus := { existingStatus with status := params.status_update }
    let platforms := params.platforms.getD [.github, .jira, .slack]
    let looped := syncPlatformsLoop env params.status_update platforms updatedStatus
    (.ok looped.1, st.put params.workflow_id looped.1, looped.2)

/-- `analyzePR` (lines 69-137). -/
def analyzePR (env : Env) (st : Store) (params : PRAnalysisParams) :
    Except JsError PRAnalysisResult × Store × List Effect :=
  let workflowId := "pr-" ++ params.owner ++ "-" ++ params.repo ++ "-" ++ toString params.pull_number
  let analyzingRec : WorkflowStatus := ⟨workflowId, "pr", "analyzing", {}⟩
  let failedRec : WorkflowStatus := ⟨workflowId, "pr", "failed", {}⟩
  let st1 := st.put workflowId analyzingRec
  let tr0 := [Effect.putStatus workflowId "analyzing"]
  match env.getPRDetails with
  | .error e =>
    (.error e, st1.put workflowId failedRec,
     tr0 ++ [.getPRDetails params.owner params.repo params.pull_number, .putStatus workflowId "failed"])
  | .ok prDetails =>
    let tr1 := tr0 ++ [Effect.getPRDetails params.owner params.repo params.pull_number]
    let jiraContext :=
      if params.include_jira_context.getD false then
        extractJiraContext prDetails.title prDetails.body
      else none
    let team := getTeamMembers env params.owner params.repo
    let tr2 := tr1 ++ team.2
    match env.aiAnalyzePullRequest with
    | .error e =>
      (.error e, st1.put workflowId failedRec, tr2 ++ [.aiAnalyzePullRequest, .putStatus workflowId "failed"])
    | .ok aiAnalysis =>
      let result : PRAnalysisResult :=
        { summary := aiAnalysis.analysis
          suggestedReviewers := (aiAnalysis.structuredData.bind (fun d => d.suggestedReviewers)).getD []
          riskLevel := jsOrStr (aiAnalysis.structuredData.bind (fun d => d.riskLevel)) "medium"
          estimatedReviewTime := jsOrNum (aiAnalysis.structuredData.bind (fun d => d.estimatedReviewTime)) 2
          topics := (aiAnalysis.structuredData.bind (fun d => d.topics)).getD []
          relatedJiraTickets := jiraContext.getD [] }
      let prUrl := "https://github.com/" ++ params.owner ++ "/" ++ params.repo ++ "/pull/" ++
        toString params.pull_number
      let completedRec : WorkflowStatus :=
        ⟨workflowId, "pr", "completed",
         { github := some { status := some "analyzed", url := some prUrl } }⟩
      (.ok result, st1.put workflowId completedRec,
       tr2 ++ [Effect.aiAnalyzePullRequest, Effect.putStatus workflowId "completed"])

/-- `smartTriage` (lines 139-212).  Note: the audit-comment write at line
183 is inside the operation's single try/catch with no local handler, so a
comment-write failure marks the workflow failed and re-raises. -/
def smartTriage (env : Env) (st : Store) (params : SmartTriageParams) :
    Except JsError IssueTriageResult × Store × List Effect :=
  let workflowId := "triage-" ++ params.issue_key
  let failedRec : WorkflowStatus := ⟨workflowId, "issue", "failed", {}⟩
  let st1 := st.put workflowId ⟨workflowId, "issue", "triaging", {}⟩
  let tr0 := [Effect.putStatus workflowId "triaging"]
  match env.jiraGetIssue with
  | .error e =>
    (.error e, st1.put workflowId failedRec,
     tr0 ++ [.jiraGetIssue params.issue_key, .putStatus workflowId "failed"])
  | .ok jiraIssue =>
    let tr1 := tr0 ++ [Effect.jiraGetIssue params.issue_key]
    let githubCtxTrace :=
      match params.github_issue_url with
      | some url => (extractGitHubIssueContext env url).2
      | none => []
    let tr2 := tr1 ++ githubCtxTrace
    let similar := findSimilarIssues env jiraIssue.summary jiraIssue.description
    let tr3 := tr2 ++ similar.2
    match env.aiTriageIssue with
    | .error e =>
      (.error e, st1.put workflowId failedRec, tr3 ++ [.aiTriageIssue, .putStatus workflowId "failed"])
    | .ok aiAnalysis =>
      let sprint := getSuggestedSprint env params.issue_key
      let result : IssueTriageResult :=
        { priority := jsOrStr (aiAnalysis.structuredData.bind (fun d => d.priority)) "medium"
          category := jsOrStr (aiAnalysis.structuredData.bind (fun d => d.category)) "story"
          estimatedEffort := jsOrNum (aiAnalysis.structuredData.bind (fun d => d.estimatedEffort)) 3
          suggestedAssignee := aiAnalysis.structuredData.bind (fun d => d.suggestedAssignee)
          suggestedSprint := sprint.1
          dependencies := (aiAnalysis.structuredData.bind (fun d => d.dependencies)).getD []
          tags := (aiAnalysis.structuredData.bind (fun d => d.tags)).getD [] }
      let tr4 := tr3 ++ [Effect.aiTriageIssue] ++ sprint.2
      let comment := "🤖 IDWO Smart Triage Analysis:\n\n" ++ aiAnalysis.analysis ++
        "\n\nRecommended Priority: " ++ result.priority ++
        "\nEstimated Effort: " ++ toString result.estimatedEffort ++ " story points"
      match env.jiraAddComment with
      | .error e =>
        (.error e, st1.put workflowId failedRec,
         tr4 ++ [Effect.jiraAddComment params.issue_key comment, Effect.putStatus workflowId "failed"])
      | .ok _ =>
        let completedRec : WorkflowStatus :=
          ⟨workflowId, "issue", "completed",
           { jira := some { status := some "triaged", key := some params.issue_key } }⟩
        (.ok result, st1.put workflowId completedRec,
         tr4 ++ [Effect.jiraAddComment params.issue_key comment, Effect.putStatus workflowId "completed"])

/-- `executeRelease` (lines 489-511): re-parse the repository, create the
release (`draft` iff the recommendation is not "proceed"); adapter failure
re-raises. -/
def executeRelease (env : Env) (params : ReleaseOrchestrationParams) (analysis : ReleaseAnalysis) :
    Except JsError Unit × List Effect :=
  let repoParts := jsSplit params.repository '/' 
  let owner := repoParts[0]?
  let repo := repoParts[1]?
  if jsFalsyStr owner || jsFalsyStr repo then
    (.error (.message "Invalid repository format. Expected \"owner/repo\""), [])
  else
    (env.createRelease,
     [.createRelease (owner.getD "") (repo.getD "") params.release_version
        (decide (analysis.recommendation ≠ "proceed"))])

/-- `orchestrateRelease` (lines 214-307).  The malformed-repository check
precedes the try block, so it writes no state at all.  `Promise.all` issues
all three reads; a rejection aborts the operation (first in field order,
timing being unobservable in this model). -/
def orchestrateRelease (env : Env) (st : Store) (params : ReleaseOrchestrationParams) :
    Except JsError ReleaseAnalysis × Store × List Effect :=
  let workflowId := "release-" ++ params.release_version
  let repoParts := jsSplit params.repository '/' 
  let owner? := repoParts[0]?
  let repo? := repoParts[1]?
  if jsFalsyStr owner? || jsFalsyStr repo? then
    (.error (.message "Invalid repository format. Expected \"owner/repo\""), st, [])
  else
    let owner := owner?.getD ""
    let repo := repo?.getD ""
    let failedRec : WorkflowStatus := ⟨workflowId, "release", "failed", {}⟩
    let st1 := st.put workflowId ⟨workflowId, "release", "analyzing", {}⟩
    let tr1 := [Effect.putStatus workflowId "analyzing",
                Effect.getRepositoryStats owner repo,
                Effect.jiraProjectStats params.jira_project,
                Effect.slackFindChannel params.slack_channel]
    match env.getRepositoryStats, env.jiraProjectStats, env.slackFindChannel with
    | .error e, _, _ => (.error e, st1.put workflowId failedRec, tr1 ++ [.putStatus workflowId "failed"])
    | .ok _, .error e, _ => (.error e, st1.put workflowId failedRec, tr1 ++ [.putStatus workflowId "failed"])
    | .ok _, .ok _, .error e => (.error e, st1.put workflowId failedRec, tr1 ++ [.putStatus workflowId "failed"])
    | .ok _repoStats, .ok jiraStats, .ok slackChannel? =>
      match slackChannel? with
      | none =>
        (.error (.message ("Slack channel " ++ params.slack_channel ++ " not found")),
         st1.put workflowId failedRec, tr1 ++ [.putStatus workflowId "failed"])
      | some slackChannel =>
        let blocking := getBlockingIssues env params.jira_project
        let tr2 := tr1 ++ blocking.2
        match env.aiAssessReleaseReadiness with
        | .error e =>
          (.error e, st1.put workflowId failedRec,
           tr2 ++ [.aiAssessReleaseReadiness, .putStatus workflowId "failed"])
        | .ok aiAnalysis =>
          let tr3 := tr2 ++ [Effect.aiAssessReleaseReadiness]
          let result : ReleaseAnalysis :=
            { readiness := jsOrNum (aiAnalysis.structuredData.bind (fun d => d.readinessScore)) 70
              blockers := (aiAnalysis.structuredData.bind (fun d => d.blockers)).getD []
              testCoverage := jsOrNum (some (getTestResults owner repo).coverage) 0
              openIssues := jiraStats.totalIssues
              recommendation :=
                determineReleaseRecommendation
                  (jsOrNum (aiAnalysis.structuredData.bind (fun d => d.readinessScore)) 70)
              suggestedActions := aiAnalysis.recommendations }
          let rel :=
            if params.dry_run.getD false = false ∧ result.recommendation = "proceed" then
              executeRelease env params result
            else ((.ok () : Except JsError Unit), [])
          match rel.1 with
          | .error e =>
            (.error e, st1.put workflowId failedRec, tr3 ++ rel.2 ++ [.putStatus workflowId "failed"])
          | .ok _ =>
            let tr4 := tr3 ++ rel.2
            match env.slackSendNotification with
            | .error e =>
              (.error e, st1.put workflowId failedRec,
               tr4 ++ [.slackSendNotification slackChannel.id, .putStatus workflowId "failed"])
            | .ok _ =>
              let completedRec : WorkflowStatus :=
                ⟨workflowId, "release", "completed",
                 { github := some { status := some "analyzed",
                                    url := some ("https://github.com/" ++ params.repository) }
                   jira := some { status := some "analyzed", key := some params.jira_project }
                   slack := some { channel := some slackChannel.id, messageId := some "notification-sent" } }⟩
              (.ok result, st1.put workflowId completedRec,
               tr4 ++ [Effect.slackSendNotification slackChannel.id,
                       Effect.putStatus workflowId "completed"])

/-- The sequence of state-store writes of a trace, as
`(workflowId, status)` pairs in write order. -/
def putEvents (trace : List Effect) : List (String × String) :=
  trace.filterMap (fun e =>
    match e with
    | .putStatus w s => some (w, s)
    | _ => none)

/-- The platforms for which the sync loop attempted a push, in order. -/
def pushAttempts (trace : List Effect) : List Platform :=
  trace.filterMap (fun e =>
    match e with
    | .syncPush p => some p
    | _ => none)

/-- Is an effect a release-creation write? -/
def isCreateRelease : Effect → Bool
  | .createRelease _ _ _ _ => true
  | _ => false

/-- A repository string that parses as `owner/repo` with both parts
non-empty (the check at the head of `orchestrateRelease`). -/
def wellFormedRepo (repository : String) : Prop :=
  jsFalsyStr (jsSplit repository '/')[0]? = false ∧
  jsFalsyStr (jsSplit repository '/')[1]? = false

/-- A fixed successful LLM outcome used for concrete runs. -/
def okAnalysisResult : AnalysisResult :=
  { analysis := "ok", confidence := 80, recommendations := [] }

/-- An environment in which every adapter call succeeds. -/
def envAllOk : Env :=
  { getPRDetails := .ok ⟨"Fix login", "Implements ABC-1"⟩
    getRepositoryStats := .ok ⟨["alice", "bob"]⟩
    getIssueDetails := .ok ()
    createRelease := .ok ()
    updatePRStatus := .ok ()
    jiraGetIssue := .ok ⟨"Crash on save", "Editor crashes", none⟩
    jiraSearchIssues := .ok []
    jiraProjectStats := .ok ⟨12⟩
    jiraAddComment := .ok ()
    slackFindChannel := .ok (some ⟨"C123"⟩)
    slackSendNotification := .ok ()
    aiAnalyzePullRequest := .ok okAnalysisResult
    aiTriageIssue := .ok okAnalysisResult
    aiAssessReleaseReadiness := .ok okAnalysisResult }

/-- All-ok environment except that the tracker comment write fails. -/
def envCommentFail : Env :=
  { envAllOk with jiraAddComment := .error (.service "jira" "comment write refused") }

/-- All-ok environment except that the PR-detail fetch fails. -/
def envPRDetailFail : Env :=
  { envAllOk with getPRDetails := .error (.service "github" "PR not found") }

/-- All-ok environment except that the channel lookup resolves to no
channel. -/
def envChannelNone : Env :=
  { envAllOk with slackFindChannel := .ok none }

/-- C4: the release-recommendation mapping is exactly the fixed thresholds:
score ≥ 85 ⇒ "proceed", 70 ≤ score < 85 ⇒ "caution", score < 70 ⇒ "block";
in particular 85 ↦ proceed, 84 ↦ caution, 70 ↦ caution, 69 ↦ block. -/
theorem determineReleaseRecommendation_thresholds (s : ℚ) :
    (85 ≤ s → determineReleaseRecommendation s = "proceed") ∧
    (70 ≤ s ∧ s < 85 → determineReleaseRecommendation s = "caution") ∧
    (s < 70 → determineReleaseRecommendation s = "block") ∧
    determineReleaseRecommendation 85 = "proceed" ∧
    determineReleaseRecommendation 84 = "caution" ∧
    determineReleaseRecommendation 70 = "caution" ∧
    determineReleaseRecommendation 69 = "block" := by
  refine ⟨fun h => ?_, fun h => ?_, fun h => ?_, ?_, ?_, ?_, ?_⟩ <;>
      unfold determineReleaseRecommendation <;> split_ifs with h1 h2 <;>
      simp only [ge_iff_le, not_le] at * <;>
      first
        | rfl
        | (exfalso; linarith [h.1, h.2])
        | (exfalso; linarith)

/-- Witness for C4 at concrete scores. -/
theorem determineReleaseRecommendation_thresholds_witness :
    determineReleaseRecommendation 90 = "proceed" ∧
    determineReleaseRecommendation 75 = "caution" ∧
    determineReleaseRecommendation 10 = "block" :=
  ⟨(determineReleaseRecommendation_thresholds 90).1 (by norm_num),
   (determineReleaseRecommendation_thresholds 75).2.1 ⟨by norm_num, by norm_num⟩,
   (determineReleaseRecommendation_thresholds 10).2.2.1 (by norm_num)⟩

/-- C5: for every raw confidence the LLM adapter parses, the
`AnalysisResult` handed to the core has confidence `max 0 (min 100 c)`,
hence within [0,100]; in particular -5 ↦ 0 and 150 ↦ 100. -/
theorem analyzeContextResult_confidence_clamped (p : OpenAIParsedResult) :
    (analyzeContextResult p).confidence = max 0 (min 100 p.confidence) ∧
    0 ≤ (analyzeContextResult p).confidence ∧
    (analyzeContextResult p).confidence ≤ 100 ∧
    (analyzeContextResult { p with confidence := -5 }).confidence = 0 ∧
    (analyzeContextResult { p with confidence := 150 }).confidence = 100 := by
  unfold analyzeContextResult
  refine ⟨rfl, le_max_left 0 _, ?_, ?_, ?_⟩
  · exact max_le (by norm_num) (min_le_left 100 _)
  · simp
  · simp [max_def, min_def]
    norm_num

/-- C9: the velocity-trend function yields "increasing" on
[10,10,10,10,20,20,20], "decreasing" on [20,20,20,20,10,10,10], and
"stable" on every history of length < 2. -/
theorem calculateVelocityTrend_spec (v : Velocity) :
    calculateVelocityTrend { current := 0, historical := [10, 10, 10, 10, 20, 20, 20] } = "increasing" ∧
    calculateVelocityTrend { current := 0, historical := [20, 20, 20, 20, 10, 10, 10] } = "decreasing" ∧
    (v.historical.length < 2 → calculateVelocityTrend v = "stable") := by
  refine ⟨by unfold calculateVelocityTrend; norm_num,
          by unfold calculateVelocityTrend; norm_num, fun h => ?_⟩
  unfold calculateVelocityTrend
  rw [if_pos h]

/-- Witness for C9 at a concrete short history. -/
theorem calculateVelocityTrend_spec_witness :
    ([(5 : ℚ)].length < 2) ∧
    calculateVelocityTrend { current := 0, historical := [(5 : ℚ)] } = "stable" :=
  ⟨by decide,
   (calculateVelocityTrend_spec { current := 0, historical := [(5 : ℚ)] }).2.2 (by decide)⟩

/-- `Map.get` after `Map.set` on the same key yields the new record. -/
theorem Store.get_put (st : Store) (k : String) (v : WorkflowStatus) :
    (st.put k v).get k = some v := by
  simp [Store.put, Store.get, List.find?]

/-- `putEvents` distributes over trace concatenation. -/
theorem putEvents_append (a b : List Effect) :
    putEvents (a ++ b) = putEvents a ++ putEvents b := by
  simp [putEvents, List.filterMap_append]

/-- The best-effort GitHub-issue-context lookup performs at most one
adapter call and never writes the state store. -/
theorem extractGitHubIssueContext_trace (env : Env) (url : String) :
    (extractGitHubIssueContext env url).2 = [] ∨
    ∃ o r n, (extractGitHubIssueContext env url).2 = [Effect.getIssueDetails o r n] := by
  unfold extractGitHubIssueContext
  dsimp only
  split_ifs <;> simp

/-- A platform push never recursively records a sync attempt. -/
theorem pushAttempts_updateStatusOnPlatform (env : Env) (p : Platform)
    (w : WorkflowStatus) (u : String) :
    pushAttempts (updateStatusOnPlatform env p w u).2 = [] := by
  unfold updateStatusOnPlatform
  cases p <;> dsimp only <;> split_ifs <;> simp [pushAttempts]

/-- `pushAttempts` distributes over trace concatenation. -/
theorem pushAttempts_append (a b : List Effect) :
    pushAttempts (a ++ b) = pushAttempts a ++ pushAttempts b := by
  simp [pushAttempts, List.filterMap_append]

/-- A `syncPush` event contributes itself to `pushAttempts`. -/
theorem pushAttempts_cons_syncPush (p : Platform) (t : List Effect) :
    pushAttempts (Effect.syncPush p :: t) = p :: pushAttempts t := by
  simp [pushAttempts]

/-- The sync loop records exactly one push attempt per requested platform,
in request order. -/
theorem pushAttempts_syncPlatformsLoop (env : Env) (u : String)
    (ps : List Platform) (w : WorkflowStatus) :
    pushAttempts (syncPlatformsLoop env u ps w).2 = ps := by
  induction ps generalizing w with
  | nil => simp [syncPlatformsLoop, pushAttempts]
  | cons p rest ih =>
    simp only [syncPlatformsLoop, pushAttempts_cons_syncPush, pushAttempts_append,
      pushAttempts_updateStatusOnPlatform, ih, List.nil_append]
    rfl

/-- C1 (code bug at orchestrator lines 328-331): after a successful
`analyzePR` for `o/r#1`, a `syncWorkflowStatus` to "in-review" on platform
github whose GitHub push succeeds does return successfully and replaces
the record's top-level status — but the stored `services.github.status`
remains "analyzed".  The merge `{ status: params.status_update,
...currentService }` spreads the pre-existing entry after the fresh
status, overriding it; the spec (and the repository's own orchestrator
test) expects "in-review". -/
theorem sync_after_analyzePR_github_status_stays_analyzed :
    (syncWorkflowStatus envAllOk (analyzePR envAllOk [] ⟨"o", "r", 1, none⟩).2.1
        ⟨"pr-o-r-1", "in-review", some [Platform.github]⟩).1 =
      .ok ⟨"pr-o-r-1", "pr", "in-review",
        { github := some { status := some "analyzed",
                           url := some "https://github.com/o/r/pull/1" } }⟩ ∧
    (syncWorkflowStatus envAllOk (analyzePR envAllOk [] ⟨"o", "r", 1, none⟩).2.1
        ⟨"pr-o-r-1", "in-review", some [Platform.github]⟩).2.2 =
      [Effect.syncPush Platform.github, Effect.updatePRStatus "o" "r" "1"] ∧
    ((syncWorkflowStatus envAllOk (analyzePR envAllOk [] ⟨"o", "r", 1, none⟩).2.1
        ⟨"pr-o-r-1", "in-review", some [Platform.github]⟩).2.1.get "pr-o-r-1").bind
      (fun w => w.services.github.bind (fun g => g.status)) = some "analyzed" := by
  decide

/-- C2 counterexample: with every read succeeding but the audit-comment
write failing, `smartTriage` does not return the triage result, and the
stored status is "failed" rather than "completed". -/
theorem smartTriage_comment_failure_concrete :
    (smartTriage envCommentFail [] ⟨"PROJ-1", none, none⟩).1 =
      .error (.service "jira" "comment write refused") ∧
    ((smartTriage envCommentFail [] ⟨"PROJ-1", none, none⟩).2.1.get "triage-PROJ-1").map
      (fun w => w.status) = some "failed" := by
  decide

/-- C2 (amended): for every smartTriage call in which the tracker-issue
fetch and the LLM analysis succeed but the audit-comment write fails with
error e, the comment write being inside the operation's only try/catch,
the operation rejects with e itself, and the stored workflow status is
"failed" (written after the initial "triaging" record) — the comment write
is not best-effort. -/
theorem smartTriage_comment_failure_marks_failed (env : Env) (st : Store)
    (params : SmartTriageParams) (issue : JiraIssue) (ai : AnalysisResult) (e : JsError)
    (h1 : env.jiraGetIssue = .ok issue) (h2 : env.aiTriageIssue = .ok ai)
    (h3 : env.jiraAddComment = .error e) :
    (smartTriage env st params).1 = .error e ∧
    ((smartTriage env st params).2.1.get ("triage-" ++ params.issue_key)).map
      (fun w => w.status) = some "failed" ∧
    putEvents (smartTriage env st params).2.2 =
      [("triage-" ++ params.issue_key, "triaging"),
       ("triage-" ++ params.issue_key, "failed")] := by
  rcases hu : params.github_issue_url with _ | url
  · simp [smartTriage, h1, h2, h3, hu, getSuggestedSprint, findSimilarIssues,
      Store.get_put, putEvents, List.filterMap_append]
  · rcases extractGitHubIssueContext_trace env url with hc | ⟨o, r, n, hc⟩ <;>
      simp [smartTriage, h1, h2, h3, hu, hc, getSuggestedSprint, findSimilarIssues,
        Store.get_put, putEvents, List.filterMap_append]

/-- Witness for C2 (amended) in the concrete comment-failure environment. -/
theorem smartTriage_comment_failure_marks_failed_witness :
    envCommentFail.jiraGetIssue = .ok ⟨"Crash on save", "Editor crashes", none⟩ ∧
    envCommentFail.aiTriageIssue = .ok okAnalysisResult ∧
    envCommentFail.jiraAddComment = .error (.service "jira" "comment write refused") ∧
    ((smartTriage envCommentFail [] ⟨"PROJ-1", none, none⟩).1 =
        .error (.service "jira" "comment write refused") ∧
      ((smartTriage envCommentFail [] ⟨"PROJ-1", none, none⟩).2.1.get
          ("triage-" ++ "PROJ-1")).map (fun w => w.status) = some "failed" ∧
      putEvents (smartTriage envCommentFail [] ⟨"PROJ-1", none, none⟩).2.2 =
        [("triage-" ++ "PROJ-1", "triaging"), ("triage-" ++ "PROJ-1", "failed")]) :=
  ⟨rfl, rfl, rfl,
   smartTriage_comment_failure_marks_failed envCommentFail [] ⟨"PROJ-1", none, none⟩
     ⟨"Crash on save", "Editor crashes", none⟩ okAnalysisResult
     (.service "jira" "comment write refused") rfl rfl rfl⟩

/-- `analyzePR` always writes exactly analyzing-then-completed or
analyzing-then-failed for its own workflow id. -/
theorem analyzePR_status_writes (env : Env) (st : Store) (p : PRAnalysisParams) :
    putEvents (analyzePR env st p).2.2 =
      [("pr-" ++ p.owner ++ "-" ++ p.repo ++ "-" ++ toString p.pull_number, "analyzing"),
       ("pr-" ++ p.owner ++ "-" ++ p.repo ++ "-" ++ toString p.pull_number, "completed")] ∨
    putEvents (analyzePR env st p).2.2 =
      [("pr-" ++ p.owner ++ "-" ++ p.repo ++ "-" ++ toString p.pull_number, "analyzing"),
       ("pr-" ++ p.owner ++ "-" ++ p.repo ++ "-" ++ toString p.pull_number, "failed")] := by
  rcases h1 : env.getPRDetails with e | d <;>
    rcases h2 : env.aiAnalyzePullRequest with e2 | a <;>
    simp [analyzePR, h1, h2, getTeamMembers, putEvents, List.filterMap_append]

/-- `smartTriage` always writes exactly triaging-then-completed or
triaging-then-failed for its own workflow id. -/
theorem smartTriage_status_writes (env : Env) (st : Store) (p : SmartTriageParams) :
    putEvents (smartTriage env st p).2.2 =
      [("triage-" ++ p.issue_key, "triaging"), ("triage-" ++ p.issue_key, "completed")] ∨
    putEvents (smartTriage env st p).2.2 =
      [("triage-" ++ p.issue_key, "triaging"), ("triage-" ++ p.issue_key, "failed")] := by
  rcases hu : p.github_issue_url with _ | url
  · rcases h1 : env.jiraGetIssue with e | issue <;>
      rcases h2 : env.aiTriageIssue with e2 | ai <;>
      rcases h3 : env.jiraAddComment with e3 | u3 <;>
      simp [smartTriage, h1, h2, h3, hu, getSuggestedSprint, findSimilarIssues, putEvents,
        List.filterMap_append]
  · rcases extractGitHubIssueContext_trace env url with hc | ⟨o, r, n, hc⟩ <;>
      rcases h1 : env.jiraGetIssue with e | issue <;>
      rcases h2 : env.aiTriageIssue with e2 | ai <;>
      rcases h3 : env.jiraAddComment with e3 | u3 <;>
      simp [smartTriage, h1, h2, h3, hu, hc, getSuggestedSprint, findSimilarIssues, putEvents,
        List.filterMap_append]

/-- `orchestrateRelease` on a well-formed repository always writes exactly
analyzing-then-completed or analyzing-then-failed for its own workflow id. -/
theorem orchestrateRelease_status_writes (env : Env) (st : Store)
    (p : ReleaseOrchestrationParams) (hw : wellFormedRepo p.repository) :
    putEvents (orchestrateRelease env st p).2.2 =
      [("release-" ++ p.release_version, "analyzing"),
       ("release-" ++ p.release_version, "completed")] ∨
    putEvents (orchestrateRelease env st p).2.2 =
      [("release-" ++ p.release_version, "analyzing"),
       ("release-" ++ p.release_version, "failed")] := by
  obtain ⟨hw1, hw2⟩ := hw
  rcases h1 : env.getRepositoryStats with e | rs <;>
    rcases h2 : env.jiraProjectStats with e2 | ps2 <;>
    rcases h3 : env.slackFindChannel with e3 | ch <;>
    try rcases ch with _ | chv
  all_goals
    rcases h4 : env.aiAssessReleaseReadiness with e4 | ai <;>
    rcases h5 : env.createRelease with e5 | u5 <;>
    rcases h6 : env.slackSendNotification with e6 | u6 <;>
    simp [orchestrateRelease, executeRelease, getBlockingIssues, h1, h2, h3, h4, h5, h6,
      hw1, hw2, putEvents, List.filterMap_append] <;>
    split_ifs <;>
    simp [putEvents, List.filterMap_append]

/-- C3 counterexample: the first record `smartTriage` stores has status
"triaging", not "analyzing". -/
theorem smartTriage_first_put_is_triaging :
    (putEvents (smartTriage envAllOk [] ⟨"PROJ-1", none, none⟩).2.2).head? =
      some ("triage-PROJ-1", "triaging") ∧
    ("triaging" : String) ≠ "analyzing" := by
  decide

/-- C3 (amended): for every call, the per-id sequence of stored records is
start → completed or start → failed, where the start status is "analyzing"
for `analyzePR` and (with a well-formed owner/repo) `orchestrateRelease`,
but "triaging" for `smartTriage`. -/
theorem workflow_state_machine (env : Env) (st : Store) (p1 : PRAnalysisParams)
    (p2 : SmartTriageParams) (p3 : ReleaseOrchestrationParams)
    (hw : wellFormedRepo p3.repository) :
    (putEvents (analyzePR env st p1).2.2 =
        [("pr-" ++ p1.owner ++ "-" ++ p1.repo ++ "-" ++ toString p1.pull_number, "analyzing"),
         ("pr-" ++ p1.owner ++ "-" ++ p1.repo ++ "-" ++ toString p1.pull_number, "completed")] ∨
      putEvents (analyzePR env st p1).2.2 =
        [("pr-" ++ p1.owner ++ "-" ++ p1.repo ++ "-" ++ toString p1.pull_number, "analyzing"),
         ("pr-" ++ p1.owner ++ "-" ++ p1.repo ++ "-" ++ toString p1.pull_number, "failed")]) ∧
    (putEvents (smartTriage env st p2).2.2 =
        [("triage-" ++ p2.issue_key, "triaging"), ("triage-" ++ p2.issue_key, "completed")] ∨
      putEvents (smartTriage env st p2).2.2 =
        [("triage-" ++ p2.issue_key, "triaging"), ("triage-" ++ p2.issue_key, "failed")]) ∧
    (putEvents (orchestrateRelease env st p3).2.2 =
        [("release-" ++ p3.release_version, "analyzing"),
         ("release-" ++ p3.release_version, "completed")] ∨
      putEvents (orchestrateRelease env st p3).2.2 =
        [("release-" ++ p3.release_version, "analyzing"),
         ("release-" ++ p3.release_version, "failed")]) :=
  ⟨analyzePR_status_writes env st p1, smartTriage_status_writes env st p2,
   orchestrateRelease_status_writes env st p3 hw⟩

/-- Witness for C3 (amended) at concrete inputs in the all-ok environment. -/
theorem workflow_state_machine_witness :
    wellFormedRepo "o/r" ∧
    ((putEvents (analyzePR envAllOk [] ⟨"o", "r", 1, none⟩).2.2 =
        [("pr-o-r-1", "analyzing"), ("pr-o-r-1", "completed")] ∨
      putEvents (analyzePR envAllOk [] ⟨"o", "r", 1, none⟩).2.2 =
        [("pr-o-r-1", "analyzing"), ("pr-o-r-1", "failed")]) ∧
     (putEvents (smartTriage envAllOk [] ⟨"K-1", none, none⟩).2.2 =
        [("triage-K-1", "triaging"), ("triage-K-1", "completed")] ∨
      putEvents (smartTriage envAllOk [] ⟨"K-1", none, none⟩).2.2 =
        [("triage-K-1", "triaging"), ("triage-K-1", "failed")]) ∧
     (putEvents (orchestrateRelease envAllOk [] ⟨"v1", "o/r", "P", "ch", none⟩).2.2 =
        [("release-v1", "analyzing"), ("release-v1", "completed")] ∨
      putEvents (orchestrateRelease envAllOk [] ⟨"v1", "o/r", "P", "ch", none⟩).2.2 =
        [("release-v1", "analyzing"), ("release-v1", "failed")])) :=
  ⟨⟨rfl, rfl⟩,
   workflow_state_machine envAllOk [] ⟨"o", "r", 1, none⟩ ⟨"K-1", none, none⟩
     ⟨"v1", "o/r", "P", "ch", none⟩ ⟨rfl, rfl⟩⟩

/-- C6: `syncWorkflowStatus` on a workflow id absent from the state store
rejects with a not-found error naming that id, performs no platform
pushes (empty trace), and leaves the state store unchanged. -/
theorem syncWorkflowStatus_unknown_id (env : Env) (st : Store)
    (params : WorkflowStatusParams) (h : st.get params.workflow_id = none) :
    syncWorkflowStatus env st params =
      (.error (.message ("Workflow " ++ params.workflow_id ++ " not found")), st, []) := by
  unfold syncWorkflowStatus
  rw [h]

/-- Witness for C6 on the empty store. -/
theorem syncWorkflowStatus_unknown_id_witness :
    Store.get [] "pr-o-r-9" = none ∧
    syncWorkflowStatus envAllOk [] ⟨"pr-o-r-9", "in-review", none⟩ =
      (.error (.message ("Workflow " ++ "pr-o-r-9" ++ " not found")), ([] : Store), []) :=
  ⟨rfl, syncWorkflowStatus_unknown_id envAllOk [] ⟨"pr-o-r-9", "in-review", none⟩ rfl⟩

/-- C7: when the channel lookup resolves to no channel (and the two sibling
parallel reads succeed, so their rejection cannot preempt it), the
operation rejects with an error naming the requested channel, and the
release-creation write never appears in the trace. -/
theorem orchestrateRelease_channel_not_found (env : Env) (st : Store)
    (p : ReleaseOrchestrationParams) (hw : wellFormedRepo p.repository)
    (hch : env.slackFindChannel = .ok none)
    (hrs : ∃ s, env.getRepositoryStats = .ok s)
    (hps : ∃ s, env.jiraProjectStats = .ok s) :
    (orchestrateRelease env st p).1 =
      .error (.message ("Slack channel " ++ p.slack_channel ++ " not found")) ∧
    (orchestrateRelease env st p).2.2.any isCreateRelease = false := by
  obtain ⟨rs, hrs⟩ := hrs
  obtain ⟨ps2, hps⟩ := hps
  obtain ⟨hw1, hw2⟩ := hw
  simp [orchestrateRelease, hw1, hw2, hrs, hps, hch, isCreateRelease]

/-- Witness for C7 in the channel-less environment. -/
theorem orchestrateRelease_channel_not_found_witness :
    wellFormedRepo "o/r" ∧
    envChannelNone.slackFindChannel = .ok none ∧
    (∃ s, envChannelNone.getRepositoryStats = .ok s) ∧
    (∃ s, envChannelNone.jiraProjectStats = .ok s) ∧
    ((orchestrateRelease envChannelNone [] ⟨"v1", "o/r", "P", "ops", none⟩).1 =
        .error (.message ("Slack channel " ++ "ops" ++ " not found")) ∧
      (orchestrateRelease envChannelNone [] ⟨"v1", "o/r", "P", "ops", none⟩).2.2.any
        isCreateRelease = false) :=
  ⟨⟨rfl, rfl⟩, rfl, ⟨⟨["alice", "bob"]⟩, rfl⟩, ⟨⟨12⟩, rfl⟩,
   orchestrateRelease_channel_not_found envChannelNone [] ⟨"v1", "o/r", "P", "ops", none⟩
     ⟨rfl, rfl⟩ rfl ⟨⟨["alice", "bob"]⟩, rfl⟩ ⟨⟨12⟩, rfl⟩⟩

/-- C8: when the initial PR-detail fetch rejects with adapter error e,
`analyzePR` stores a "failed" record for its workflow id (after the
initial "analyzing" one, hence before re-raising) and surfaces exactly e. -/
theorem analyzePR_detail_fetch_failure (env : Env) (st : Store) (p : PRAnalysisParams)
    (e : JsError) (h : env.getPRDetails = .error e) :
    (analyzePR env st p).1 = .error e ∧
    ((analyzePR env st p).2.1.get
        ("pr-" ++ p.owner ++ "-" ++ p.repo ++ "-" ++ toString p.pull_number)).map
      (fun w => w.status) = some "failed" ∧
    putEvents (analyzePR env st p).2.2 =
      [("pr-" ++ p.owner ++ "-" ++ p.repo ++ "-" ++ toString p.pull_number, "analyzing"),
       ("pr-" ++ p.owner ++ "-" ++ p.repo ++ "-" ++ toString p.pull_number, "failed")] := by
  simp [analyzePR, h, Store.get_put, putEvents]

/-- Witness for C8 in the PR-detail-failure environment. -/
theorem analyzePR_detail_fetch_failure_witness :
    envPRDetailFail.getPRDetails = .error (.service "github" "PR not found") ∧
    ((analyzePR envPRDetailFail [] ⟨"o", "r", 1, none⟩).1 =
        .error (.service "github" "PR not found") ∧
      ((analyzePR envPRDetailFail [] ⟨"o", "r", 1, none⟩).2.1.get
          ("pr-" ++ "o" ++ "-" ++ "r" ++ "-" ++ toString 1)).map
        (fun w => w.status) = some "failed" ∧
      putEvents (analyzePR envPRDetailFail [] ⟨"o", "r", 1, none⟩).2.2 =
        [("pr-" ++ "o" ++ "-" ++ "r" ++ "-" ++ toString 1, "analyzing"),
         ("pr-" ++ "o" ++ "-" ++ "r" ++ "-" ++ toString 1, "failed")]) :=
  ⟨rfl, analyzePR_detail_fetch_failure envPRDetailFail [] ⟨"o", "r", 1, none⟩
    (.service "github" "PR not found") rfl⟩

/-- C10: on an existing workflow id with the platforms parameter omitted
(undefined), the sync loop attempts a push for github, jira and slack, in
that order. -/
theorem syncWorkflowStatus_default_platforms (env : Env) (st : Store)
    (params : WorkflowStatusParams) (w : WorkflowStatus)
    (hw : st.get params.workflow_id = some w) (hp : params.platforms = none) :
    pushAttempts (syncWorkflowStatus env st params).2.2 =
      [Platform.github, Platform.jira, Platform.slack] := by
  unfold syncWorkflowStatus
  rw [hw, hp]
  simp [Option.getD, pushAttempts_syncPlatformsLoop]

/-- Witness for C10 on a one-record store. -/
theorem syncWorkflowStatus_default_platforms_witness :
    Store.get (Store.put [] "w1" ⟨"w1", "pr", "completed", {}⟩) "w1" =
      some ⟨"w1", "pr", "completed", {}⟩ ∧
    pushAttempts
        (syncWorkflowStatus envAllOk (Store.put [] "w1" ⟨"w1", "pr", "completed", {}⟩)
          ⟨"w1", "done", none⟩).2.2 =
      [Platform.github, Platform.jira, Platform.slack] :=
  ⟨rfl, syncWorkflowStatus_default_platforms envAllOk
    (Store.put [] "w1" ⟨"w1", "pr", "completed", {}⟩) ⟨"w1", "done", none⟩
    ⟨"w1", "pr", "completed", {}⟩ rfl rfl⟩
